import Mathlib

/-!
Shallow embedding of `src/native/src/ptrace_wrapper.c`: a five-function shim
over the ptrace and waitpid syscalls (`dbg_attach`, `dbg_detach`,
`dbg_interrupt`, `dbg_continue`, `dbg_wait`), together with spec-level models
of the TraceeController design that the specification describes around it.

Each syscall is represented by the outcome the kernel hands back to the C
code: ptrace returns 0 on success or -1 with `errno` set; waitpid returns
the pid of a child whose state changed, 0 under WNOHANG when nothing
changed, or -1 with `errno` set. The shim functions are pure functions of
their arguments and that single outcome, mirroring the C control flow
(`if (ret == -1) return -errno; return ...`).
-/

/-- The four ptrace requests issued by the shim. -/
inductive PtraceReq
  | seize
  | detach
  | interrupt
  | cont
deriving DecidableEq, Repr

/-- One ptrace invocation as built by the shim: request, target pid, and the
`addr` and `data` arguments. The C shim always passes `addr = NULL` (0); only
`dbg_continue` passes a nonzero `data` (the signal, cast int to long, which
is value-preserving). -/
structure PtraceCall where
  req : PtraceReq
  pid : Int
  addr : Int
  data : Int
deriving DecidableEq, Repr

/-- Outcome of a single ptrace syscall as the C code observes it: either
success (the call returns 0) or failure (the call returns -1 and sets
`errno = e`). -/
inductive PtraceOutcome
  | ok
  | err (e : Nat)
deriving DecidableEq, Repr

/-- Return value of ptrace as seen by the `== -1` check in the C code. -/
def ptraceRet : PtraceOutcome → Int
  | .ok => 0
  | .err _ => -1

/-- Value of `errno` after the ptrace call (0 when the call succeeded). -/
def ptraceErrno : PtraceOutcome → Nat
  | .ok => 0
  | .err e => e

/-- Result of one shim call over ptrace: the single syscall it issued and the
int it returns to its caller. -/
structure ShimResult where
  call : PtraceCall
  ret : Int
deriving DecidableEq, Repr

/-- `dbg_attach(pid)`:
`if (ptrace(PTRACE_SEIZE, pid, NULL, NULL) == -1) return -errno; return 0;` -/
def dbg_attach (pid : Int) (o : PtraceOutcome) : ShimResult :=
  ⟨⟨.seize, pid, 0, 0⟩, if ptraceRet o = -1 then -(ptraceErrno o : Int) else 0⟩

/-- `dbg_detach(pid)`:
`if (ptrace(PTRACE_DETACH, pid, NULL, NULL) == -1) return -errno; return 0;` -/
def dbg_detach (pid : Int) (o : PtraceOutcome) : ShimResult :=
  ⟨⟨.detach, pid, 0, 0⟩, if ptraceRet o = -1 then -(ptraceErrno o : Int) else 0⟩

/-- `dbg_interrupt(pid)`:
`if (ptrace(PTRACE_INTERRUPT, pid, NULL, NULL) == -1) return -errno; return 0;` -/
def dbg_interrupt (pid : Int) (o : PtraceOutcome) : ShimResult :=
  ⟨⟨.interrupt, pid, 0, 0⟩, if ptraceRet o = -1 then -(ptraceErrno o : Int) else 0⟩

/-- `dbg_continue(pid, sig)`:
`if (ptrace(PTRACE_CONT, pid, NULL, (void*)(long)sig) == -1) return -errno; return 0;`
The signal is forwarded verbatim as the `data` argument. -/
def dbg_continue (pid : Int) (sig : Int) (o : PtraceOutcome) : ShimResult :=
  ⟨⟨.cont, pid, 0, sig⟩, if ptraceRet o = -1 then -(ptraceErrno o : Int) else 0⟩

/-- Outcome of a single waitpid syscall as the C code observes it.
`changed c st`: a child `c` changed state; waitpid returns `c` and the kernel
wrote `st` through the status pointer. `noChange`: WNOHANG was set and no
child changed state; waitpid returns 0 and does not touch the status cell.
`err e`: failure; waitpid returns -1 with `errno = e` and does not touch the
status cell. -/
inductive WaitpidOutcome
  | changed (child : Nat) (st : Int)
  | noChange
  | err (e : Nat)
deriving DecidableEq, Repr

/-- Return value of waitpid as seen by the `== -1` check in the C code. -/
def waitpidRet : WaitpidOutcome → Int
  | .changed c _ => (c : Int)
  | .noChange => 0
  | .err _ => -1

/-- Value of `errno` after the waitpid call (0 when it succeeded). -/
def waitpidErrno : WaitpidOutcome → Nat
  | .err e => e
  | _ => 0

/-- Contents of the status cell of the caller after the waitpid call, given
its contents `cell` before the call. Only a reaped state change writes it. -/
def waitpidCell (o : WaitpidOutcome) (cell : Int) : Int :=
  match o with
  | .changed _ st => st
  | .noChange => cell
  | .err _ => cell

/-- Result of a `dbg_wait` call: the waitpid invocation issued (pid and
flags), the int returned to the caller, and the contents of the status cell
of the caller afterwards. -/
structure WaitResult where
  pid : Int
  flags : Int
  ret : Int
  status : Int
deriving DecidableEq, Repr

/-- `dbg_wait(pid, status, flags)`:
`pid_t result = waitpid(pid, status, flags);
 if (result == -1) return -errno; return (int)result;`
`cell` is the contents of the status cell of the caller before the call. -/
def dbg_wait (pid : Int) (cell : Int) (flags : Int) (o : WaitpidOutcome) : WaitResult :=
  let result := waitpidRet o
  ⟨pid, flags, if result = -1 then -(waitpidErrno o : Int) else result,
    waitpidCell o cell⟩

/-- The Linux WNOHANG flag bit (value 1): set exactly when bit 0 of the flags
word is set. -/
def wnohangSet (flags : Int) : Prop := flags % 2 = 1

instance (flags : Int) : Decidable (wnohangSet flags) := by
  unfold wnohangSet
  infer_instance

/-- One call into the shim, with its arguments (`cell` of a wait call is the
contents of the status cell of the caller). -/
inductive ShimOp
  | attach (pid : Int)
  | detach (pid : Int)
  | interrupt (pid : Int)
  | cont (pid : Int) (sig : Int)
  | wait (pid : Int) (cell : Int) (flags : Int)
deriving DecidableEq, Repr

/-- Outcome of one OS syscall, of either kind. -/
inductive SysOutcome
  | ptr (o : PtraceOutcome)
  | wp (o : WaitpidOutcome)
deriving DecidableEq, Repr

/-- Run one shim call against the stream of outcomes of the pending OS
syscalls. Each shim call performs exactly one OS syscall, so it consumes
exactly the head of the stream; the shim keeps no state of its own. Returns
`none` when the head outcome is not of the syscall kind the call issues. -/
def runShim (op : ShimOp) (outs : List SysOutcome) : Option (Int × List SysOutcome) :=
  match op, outs with
  | .attach pid, .ptr o :: rest => some ((dbg_attach pid o).ret, rest)
  | .detach pid, .ptr o :: rest => some ((dbg_detach pid o).ret, rest)
  | .interrupt pid, .ptr o :: rest => some ((dbg_interrupt pid o).ret, rest)
  | .cont pid sig, .ptr o :: rest => some ((dbg_continue pid sig o).ret, rest)
  | .wait pid cell flags, .wp o :: rest => some ((dbg_wait pid cell flags o).ret, rest)
  | _, _ => none

/-- Stop reasons of the spec data model (section 3). -/
inductive StopReason
  | groupStop
  | interruptStop
  | signalStop (n : Nat)
  | syscallEntry
  | syscallExit
deriving DecidableEq, Repr

/-- Tracee lifecycle states of the spec data model (section 3): exactly one
current state per handle. -/
inductive TraceeState
  | detached
  | running
  | stopped (r : StopReason)
  | interrupting
  | exited (code : Nat)
  | signaled (sig : Nat)
deriving DecidableEq, Repr

/-- A state is terminal when the tracee terminated (normally or by signal). -/
def TraceeState.terminal : TraceeState → Bool
  | .exited _ => true
  | .signaled _ => true
  | _ => false

/-- Typed control errors of the spec taxonomy (sections 4 and 6). -/
inductive ControlError
  | invalidState
  | alreadyTerminated
  | processGone
  | osFailure (e : Nat)
deriving DecidableEq, Repr

/-- The Linux errno for no-such-process. -/
def ESRCH : Nat := 3

/-- The Linux errno for interrupted-system-call. -/
def EINTR : Nat := 4

/-- Result of a controller resume call: the typed result, the state of the
handle afterwards, and whether the OS continue primitive was invoked. -/
structure ResumeOut where
  result : Except ControlError Unit
  state : TraceeState
  invokedContinue : Bool

/-- Modelled from the spec: `resume(handle, signal)` of the TraceeController,
which is not part of the supplied sources. Valid only in `Stopped`: it issues
the continue primitive with the optional signal and transitions to `Running`.
From a terminal state it fails with `AlreadyTerminated`; from any other
non-`Stopped` state it fails with `InvalidState`; in both failure-by-state
cases the OS primitive is not invoked. A primitive failure is surfaced as
`ProcessGone` when the target no longer exists, else as the OS code. -/
def TraceeController.resume (s : TraceeState) (sig : Int) (o : PtraceOutcome) :
    ResumeOut :=
  match s with
  | .exited _ => ⟨.error .alreadyTerminated, s, false⟩
  | .signaled _ => ⟨.error .alreadyTerminated, s, false⟩
  | .stopped _ =>
    match o with
    | .ok => ⟨.ok (), .running, true⟩
    | .err e =>
      ⟨.error (if e = ESRCH then .processGone else .osFailure e), s, true⟩
  | _ => ⟨.error .invalidState, s, false⟩

/-- Result of a controller detach call: the typed result, the state of the
handle afterwards, and whether the OS detach primitive was invoked. -/
structure DetachOut where
  result : Except ControlError Unit
  state : TraceeState
  invokedDetach : Bool

/-- Modelled from the spec: `detach(handle)` of the TraceeController, which
is not part of the supplied sources. It issues the detach primitive and
transitions to `Detached`. A target that is already gone is treated as
success rather than an error: from `Detached` the call is a no-op that does
not invoke the primitive, from a terminal state (already exited or killed)
it succeeds, and a primitive failure with no-such-process also counts as
success. Any other primitive failure is surfaced. -/
def TraceeController.detach (s : TraceeState) (o : PtraceOutcome) : DetachOut :=
  match s with
  | .detached => ⟨.ok (), .detached, false⟩
  | .exited _ => ⟨.ok (), .detached, false⟩
  | .signaled _ => ⟨.ok (), .detached, false⟩
  | _ =>
    match o with
    | .ok => ⟨.ok (), .detached, true⟩
    | .err e =>
      if e = ESRCH then ⟨.ok (), .detached, true⟩
      else ⟨.error (.osFailure e), s, true⟩

/-- Modelled from the spec: the retry loop of `waitForChange` around the wait
primitive, which is not part of the supplied sources. An EINTR failure from
the primitive is retried transparently; every other outcome (a state change,
a WNOHANG no-change, or any other error) is surfaced at once. The outcomes
of successive primitive attempts are supplied as a list; the loop yields the
first outcome that is not an EINTR failure, or `none` when every supplied
outcome was EINTR. -/
def TraceeController.waitRetry : List WaitpidOutcome → Option WaitpidOutcome
  | [] => none
  | o :: rest =>
    if o = .err EINTR then TraceeController.waitRetry rest else some o

/-- Modelled from the spec: a minimal OS-side tracee model, needed to state
the seize semantics ("Seize: non-stopping attach mode; tracee keeps running
after attach until explicitly interrupted"). `pendingStop` records a stop
event that the next wait call would report. -/
structure OsTracee where
  traced : Bool
  running : Bool
  pendingStop : Bool
deriving DecidableEq, Repr

/-- Modelled from the spec: the effect of each ptrace request on the modelled
tracee. Seize only makes the process traced, without stopping it or queueing
a stop event; interrupt stops it and queues the stop for the wait call;
detach releases and resumes it; continue resumes it. -/
def osApply (req : PtraceReq) (t : OsTracee) : OsTracee :=
  match req with
  | .seize => { t with traced := true }
  | .detach => { t with traced := false, running := true, pendingStop := false }
  | .interrupt => { t with running := false, pendingStop := true }
  | .cont => { t with running := true }

/-- Modelled from the spec: the outcome a non-blocking wait observes on the
modelled tracee — a pending stop is reported as a state change carrying the
raw status `st`; otherwise there is no state change to report. -/
def osNonBlockingWait (pid : Int) (st : Int) (t : OsTracee) : WaitpidOutcome :=
  if t.pendingStop then .changed pid.toNat st else .noChange

/-- Claim C1: for every pid, each shim primitive (`dbg_attach`, `dbg_detach`,
`dbg_interrupt`, `dbg_continue`) returns 0 when the underlying syscall
succeeds and the negated OS error code (strictly negative) when it fails,
and for every outcome the result is one of exactly these two forms — no
other error taxonomy at the shim layer. -/
theorem shim_error_passthrough (pid sig : Int) (e : Nat) (he : 0 < e) :
    ((dbg_attach pid .ok).ret = 0 ∧ (dbg_attach pid (.err e)).ret = -(e : Int)
      ∧ (dbg_attach pid (.err e)).ret < 0)
    ∧ ((dbg_detach pid .ok).ret = 0 ∧ (dbg_detach pid (.err e)).ret = -(e : Int)
      ∧ (dbg_detach pid (.err e)).ret < 0)
    ∧ ((dbg_interrupt pid .ok).ret = 0
      ∧ (dbg_interrupt pid (.err e)).ret = -(e : Int)
      ∧ (dbg_interrupt pid (.err e)).ret < 0)
    ∧ ((dbg_continue pid sig .ok).ret = 0
      ∧ (dbg_continue pid sig (.err e)).ret = -(e : Int)
      ∧ (dbg_continue pid sig (.err e)).ret < 0)
    ∧ (∀ o : PtraceOutcome,
        (dbg_attach pid o).ret = 0
          ∨ (dbg_attach pid o).ret = -(ptraceErrno o : Int)) := by
  refine ⟨?_, ?_, ?_, ?_, ?_⟩ <;>
    first
    | (refine ⟨rfl, ?_, ?_⟩ <;>
        simp [dbg_attach, dbg_detach, dbg_interrupt, dbg_continue,
          ptraceRet, ptraceErrno] <;> omega)
    | (intro o
       cases o <;>
         simp [dbg_attach, ptraceRet, ptraceErrno])

/-- Witness for C1 at pid 1, signal 0, errno 5. -/
theorem shim_error_passthrough_witness :
    (dbg_attach 1 (PtraceOutcome.err 5)).ret < 0 :=
  (shim_error_passthrough 1 0 5 (by decide)).1.2.2

/-- Claim C2: when the OS interrupts a wait call with EINTR, the wait
operation retries transparently and the EINTR error never surfaces to the
caller; every other outcome, including every other wait error, is surfaced
at once without a retry. -/
theorem wait_eintr_never_surfaces (outs : List WaitpidOutcome)
    (o : WaitpidOutcome) (h : TraceeController.waitRetry outs = some o) :
    o ≠ .err EINTR
    ∧ ∀ o₀ : WaitpidOutcome, ∀ rest : List WaitpidOutcome,
        o₀ ≠ .err EINTR → TraceeController.waitRetry (o₀ :: rest) = some o₀ := by
  constructor
  · induction outs with
    | nil => simp [TraceeController.waitRetry] at h
    | cons hd tl ih =>
      rw [TraceeController.waitRetry] at h
      by_cases hhd : hd = .err EINTR
      · exact ih (by simpa [hhd] using h)
      · rw [if_neg hhd] at h
        exact Option.some.inj h ▸ hhd
  · intro o₀ rest h₀
    simp [TraceeController.waitRetry, h₀]

/-- Witness for C2: an EINTR outcome followed by a no-change outcome yields
the no-change outcome, which is not EINTR. -/
theorem wait_eintr_never_surfaces_witness :
    WaitpidOutcome.noChange ≠ WaitpidOutcome.err EINTR :=
  (wait_eintr_never_surfaces [.err EINTR, .noChange] .noChange (by decide)).1

/-- Claim C3: controller detach is idempotent — whenever a detach call
succeeds, an immediately following detach also succeeds and is a no-op that
does not invoke the OS primitive; and detach against an already-exited
process returns success for every primitive outcome rather than an error. -/
theorem detach_idempotent (s : TraceeState) (o₁ o₂ : PtraceOutcome)
    (h : (TraceeController.detach s o₁).result = .ok ()) :
    (TraceeController.detach (TraceeController.detach s o₁).state o₂).result = .ok ()
    ∧ (TraceeController.detach (TraceeController.detach s o₁).state o₂).invokedDetach = false
    ∧ ∀ code : Nat, ∀ o : PtraceOutcome,
        (TraceeController.detach (.exited code) o).result = .ok () := by
  have hst : (TraceeController.detach s o₁).state = .detached := by
    cases s <;> cases o₁ <;>
      simp_all [TraceeController.detach] <;>
      split at h <;> simp_all [TraceeController.detach]
  refine ⟨?_, ?_, ?_⟩
  · rw [hst]; rfl
  · rw [hst]; rfl
  · intro code o; rfl

/-- Witness for C3: detaching from a running tracee succeeds, and the second
detach succeeds as well. -/
theorem detach_idempotent_witness :
    (TraceeController.detach
      (TraceeController.detach .running .ok).state .ok).result = .ok () :=
  (detach_idempotent .running .ok .ok rfl).1

/-- Claim C4: resume from `Detached` fails with `InvalidState` and from
`Exited` fails with `AlreadyTerminated`, in both cases without invoking the
OS continue primitive; and resume only ever succeeds from a `Stopped`
state. -/
theorem resume_invalid_outside_stopped (sig : Int) (o : PtraceOutcome)
    (code : Nat) :
    ((TraceeController.resume .detached sig o).result = .error .invalidState
      ∧ (TraceeController.resume .detached sig o).invokedContinue = false)
    ∧ ((TraceeController.resume (.exited code) sig o).result
          = .error .alreadyTerminated
      ∧ (TraceeController.resume (.exited code) sig o).invokedContinue = false)
    ∧ ∀ s : TraceeState, (TraceeController.resume s sig o).result = .ok ()
        → ∃ r : StopReason, s = .stopped r := by
  refine ⟨⟨rfl, rfl⟩, ⟨rfl, rfl⟩, ?_⟩
  intro s hs
  cases s with
  | stopped r => exact ⟨r, rfl⟩
  | detached => exact absurd hs (by simp [TraceeController.resume])
  | running => exact absurd hs (by simp [TraceeController.resume])
  | interrupting => exact absurd hs (by simp [TraceeController.resume])
  | exited c => exact absurd hs (by simp [TraceeController.resume])
  | signaled sg => exact absurd hs (by simp [TraceeController.resume])

/-- Claim C5: a successful `dbg_wait` returns the pid of the child whose
state changed, a non-negative value, and delivers the raw wait status
through the status out-parameter; on syscall failure it returns the negated
OS error code. -/
theorem dbg_wait_returns_child_pid (pid cell flags st : Int) (c e : Nat)
    (he : 0 < e) :
    ((dbg_wait pid cell flags (.changed c st)).ret = (c : Int)
      ∧ 0 ≤ (dbg_wait pid cell flags (.changed c st)).ret
      ∧ (dbg_wait pid cell flags (.changed c st)).status = st)
    ∧ ((dbg_wait pid cell flags (.err e)).ret = -(e : Int)
      ∧ (dbg_wait pid cell flags (.err e)).ret < 0) := by
  refine ⟨⟨?_, ?_, rfl⟩, ?_, ?_⟩ <;>
    simp [dbg_wait, waitpidRet, waitpidErrno, waitpidCell] <;> omega

/-- Witness for C5 at pid 1, child 7, status 9, errno 5. -/
theorem dbg_wait_returns_child_pid_witness :
    (dbg_wait 1 0 0 (WaitpidOutcome.changed 7 9)).ret = (7 : Int) :=
  (dbg_wait_returns_child_pid 1 0 0 9 7 5 (by decide)).1.1

/-- Claim C6: attach issues the non-stopping seize request, so on a tracee
that is running with no pending stop event, a successful attach leaves it
running with no pending stop, and an immediately following non-blocking
wait reports no state change (`dbg_wait` returns 0) — no spurious stop. -/
theorem attach_seize_nonstopping (pid st cell flags : Int) (t : OsTracee)
    (o : PtraceOutcome) (hrun : t.running = true)
    (hns : t.pendingStop = false) :
    (dbg_attach pid o).call.req = .seize
    ∧ (osApply (dbg_attach pid o).call.req t).running = true
    ∧ (osApply (dbg_attach pid o).call.req t).pendingStop = false
    ∧ (dbg_wait pid cell flags
        (osNonBlockingWait pid st
          (osApply (dbg_attach pid o).call.req t))).ret = 0 := by
  refine ⟨rfl, ?_, ?_, ?_⟩ <;>
    simp [dbg_attach, osApply, osNonBlockingWait, dbg_wait, waitpidRet,
      waitpidErrno, hrun, hns]

/-- Witness for C6 on an untraced running tracee. -/
theorem attach_seize_nonstopping_witness :
    (dbg_wait 1 0 1
      (osNonBlockingWait 1 0
        (osApply (dbg_attach 1 PtraceOutcome.ok).call.req
          ⟨false, true, false⟩))).ret = 0 :=
  (attach_seize_nonstopping 1 0 0 1 ⟨false, true, false⟩ .ok rfl rfl).2.2.2

/-- Claim C7: the shim is stateless and one-to-one — a shim call consumes
exactly one OS syscall outcome from the stream, and its result depends only
on its arguments and that single outcome: two calls with the same arguments
and the same syscall outcome return the same result, whatever else is in the
stream. -/
theorem shim_stateless (op : ShimOp) (o : SysOutcome)
    (r₁ r₂ : List SysOutcome) (res₁ res₂ : Int × List SysOutcome)
    (h₁ : runShim op (o :: r₁) = some res₁)
    (h₂ : runShim op (o :: r₂) = some res₂) :
    res₁.1 = res₂.1 ∧ res₁.2 = r₁ ∧ res₂.2 = r₂ := by
  cases op <;> cases o <;>
    simp_all [runShim] <;>
    simp [← h₁, ← h₂]

/-- Witness for C7: an attach call with a success outcome, run against two
different stream tails, gives the same result and consumes one outcome. -/
theorem shim_stateless_witness :
    ((0 : Int), ([] : List SysOutcome)).1 = ((0 : Int), ([.ptr .ok] : List SysOutcome)).1
    ∧ ((0 : Int), ([] : List SysOutcome)).2 = ([] : List SysOutcome)
    ∧ ((0 : Int), ([.ptr .ok] : List SysOutcome)).2 = ([.ptr .ok] : List SysOutcome) :=
  shim_stateless (.attach 1) (.ptr .ok) [] [.ptr .ok] (0, []) (0, [.ptr .ok])
    (by simp [runShim, dbg_attach, ptraceRet]) (by simp [runShim, dbg_attach, ptraceRet])

/-- Claim C8: `dbg_wait` under WNOHANG with no child state change returns 0,
a non-negative success value that carries no event (the status cell is
untouched) and is distinct from every error return, which is strictly
negative. -/
theorem dbg_wait_wnohang_zero (pid cell flags : Int) (hw : wnohangSet flags) :
    (dbg_wait pid cell flags .noChange).ret = 0
    ∧ 0 ≤ (dbg_wait pid cell flags .noChange).ret
    ∧ (dbg_wait pid cell flags .noChange).status = cell
    ∧ ∀ e : Nat, 0 < e →
        (dbg_wait pid cell flags (.err e)).ret < 0
        ∧ (dbg_wait pid cell flags .noChange).ret
            ≠ (dbg_wait pid cell flags (.err e)).ret := by
  refine ⟨rfl, by simp [dbg_wait, waitpidRet], rfl, ?_⟩
  intro e hepos
  constructor <;>
    simp [dbg_wait, waitpidRet, waitpidErrno] <;> omega

/-- Witness for C8 with flags = WNOHANG and errno 5. -/
theorem dbg_wait_wnohang_zero_witness :
    (dbg_wait 1 0 1 WaitpidOutcome.noChange).ret = 0 :=
  (dbg_wait_wnohang_zero 1 0 1 (by decide)).1

/-- Claim C9: `dbg_continue` forwards the supplied signal number verbatim and
unvalidated as the data argument of the issued PTRACE_CONT call, for every
integer signal value and every syscall outcome. -/
theorem dbg_continue_forwards_signal (pid sig : Int) (o : PtraceOutcome) :
    (dbg_continue pid sig o).call = ⟨.cont, pid, 0, sig⟩
    ∧ (dbg_continue pid sig o).call.data = sig := ⟨rfl, rfl⟩

/-- Claim C10: on every error return from `dbg_wait`, the status cell of the
caller is left unchanged. -/
theorem dbg_wait_error_preserves_status (pid cell flags : Int) (e : Nat) :
    (dbg_wait pid cell flags (.err e)).status = cell := rfl
